import Mathlib

/-!
Shallow embedding of `src/src/App.tsx` (hyrosy/world): a browser client that
authenticates against a WordPress REST API, persists a session record in
`localStorage` under the key `providerAuth`, fetches the `booking` and
`enquiry` collections, and enriches each item with a `trip_name` field.

The embedding models the core functions `handleLogin`, `handleLogout`,
`fetchData`, `addTripNamesToItems` and the rehydration `useEffect` as pure
state transformers.  Network responses are supplied by explicit environment
records; a thrown JavaScript exception is an `Except.error`.  Platform APIs
(`JSON.parse`, `JSON.stringify`, `btoa`, JavaScript truthiness and property
access) are modelled by executable Lean functions following their documented
semantics.
-/

/-- A JSON value, as produced by the platform `JSON.parse`.  Numbers are
modelled as integers (the only numbers the app stores are WordPress ids). -/
inductive Json where
  | null : Json
  | bool (b : Bool) : Json
  | num (n : Int) : Json
  | str (s : String) : Json
  | arr (elems : List Json) : Json
  | obj (fields : List (String × Json)) : Json

/-- The `\x7b` character, written via its code so it never appears literally. -/
def lbraceChar : Char := Char.ofNat 123

/-- The `\x7d` character, written via its code so it never appears literally. -/
def rbraceChar : Char := Char.ofNat 125

/-- Skip JSON whitespace. -/
def skipWs : List Char → List Char
  | [] => []
  | c :: cs =>
    if c = ' ' || c = '\t' || c = '\n' || c = '\r' then skipWs cs else c :: cs

/-- Parse the body of a JSON string literal (after the opening quote),
handling the common escapes.  `acc` holds the characters read so far,
reversed. -/
def parseStringBody : List Char → List Char → Except Unit (String × List Char)
  | _, [] => .error ()
  | acc, c :: rest =>
    if c = '\"' then .ok (String.mk acc.reverse, rest)
    else if c = '\\' then
      match rest with
      | [] => .error ()
      | e :: rest2 =>
        let ec : Char :=
          if e = 'n' then '\n' else if e = 't' then '\t'
          else if e = 'r' then '\r' else e
        parseStringBody (ec :: acc) rest2
    else parseStringBody (c :: acc) rest

/-- Whether a character is a decimal digit. -/
def isDigitChar (c : Char) : Bool := '0' ≤ c && c ≤ '9'

/-- Split off the longest prefix of decimal digits. -/
def takeDigits : List Char → (List Char × List Char)
  | [] => ([], [])
  | c :: cs =>
    if isDigitChar c then
      let (ds, r) := takeDigits cs
      (c :: ds, r)
    else ([], c :: cs)

/-- Decimal digits to a natural number. -/
def digitsToNat (ds : List Char) : Nat :=
  ds.foldl (fun acc c => acc * 10 + (c.toNat - 48)) 0

/-- Parse the members of a JSON object after the opening brace.  `pv` parses
one value (it is the value parser at one fuel level down); the `Nat`
argument bounds the number of members. -/
def parseObjectBodyF (pv : List Char → Except Unit (Json × List Char)) :
    Nat → List Char → List (String × Json) → Except Unit (Json × List Char)
  | 0, _, _ => .error ()
  | n + 1, cs, acc =>
    match skipWs cs with
    | [] => .error ()
    | c :: rest =>
      if c = rbraceChar then .ok (.obj acc.reverse, rest)
      else if c = '\"' then
        match parseStringBody [] rest with
        | .error _ => .error ()
        | .ok (key, r1) =>
          match skipWs r1 with
          | ':' :: r2 =>
            match pv r2 with
            | .error _ => .error ()
            | .ok (v, r3) =>
              match skipWs r3 with
              | ',' :: r4 => parseObjectBodyF pv n r4 ((key, v) :: acc)
              | c2 :: r4 =>
                if c2 = rbraceChar then .ok (.obj ((key, v) :: acc).reverse, r4)
                else .error ()
              | [] => .error ()
          | _ => .error ()
      else .error ()

/-- Parse the elements of a JSON array after the opening bracket. -/
def parseArrayBodyF (pv : List Char → Except Unit (Json × List Char)) :
    Nat → List Char → List Json → Except Unit (Json × List Char)
  | 0, _, _ => .error ()
  | n + 1, cs, acc =>
    match skipWs cs with
    | [] => .error ()
    | c :: rest =>
      if c = ']' then .ok (.arr acc.reverse, rest)
      else
        match pv (c :: rest) with
        | .error _ => .error ()
        | .ok (v, r1) =>
          match skipWs r1 with
          | ',' :: r2 => parseArrayBodyF pv n r2 (v :: acc)
          | ']' :: r2 => .ok (.arr (v :: acc).reverse, r2)
          | _ => .error ()

/-- Parse one JSON value; the fuel bounds the nesting depth. -/
def parseValue : Nat → List Char → Except Unit (Json × List Char)
  | 0, _ => .error ()
  | fuel + 1, cs =>
    match skipWs cs with
    | [] => .error ()
    | c :: rest =>
      if c = '\"' then
        match parseStringBody [] rest with
        | .error _ => .error ()
        | .ok (s, r) => .ok (.str s, r)
      else if c = lbraceChar then
        parseObjectBodyF (parseValue fuel) (fuel + 1) rest []
      else if c = '[' then
        parseArrayBodyF (parseValue fuel) (fuel + 1) rest []
      else if c = '-' then
        let (ds, r) := takeDigits rest
        if ds.isEmpty then .error ()
        else .ok (.num (-(digitsToNat ds : Int)), r)
      else if isDigitChar c then
        let (ds, r) := takeDigits (c :: rest)
        .ok (.num (digitsToNat ds : Int), r)
      else
        match c :: rest with
        | 'n' :: 'u' :: 'l' :: 'l' :: r => .ok (.null, r)
        | 't' :: 'r' :: 'u' :: 'e' :: r => .ok (.bool true, r)
        | 'f' :: 'a' :: 'l' :: 's' :: 'e' :: r => .ok (.bool false, r)
        | _ => .error ()

/-- Model of the platform `JSON.parse` on a string: an `Except.error` is a
thrown `SyntaxError`. -/
def jsonParse (raw : String) : Except Unit Json :=
  match parseValue (raw.toList.length + 2) raw.toList with
  | .error _ => .error ()
  | .ok (j, rest) => if (skipWs rest).isEmpty then .ok j else .error ()

/-- Model of `JSON.parse(localStorage.getItem(k))`: a missing entry gives
`null`, which `JSON.parse` coerces to the string `"null"` and parses to the
JSON null value. -/
def jsonParseOrNull : Option String → Except Unit Json
  | none => .ok Json.null
  | some raw => jsonParse raw

/-- JavaScript truthiness of a JSON value. -/
def jsTruthy : Json → Bool
  | .null => false
  | .bool b => b
  | .num n => n != 0
  | .str s => s != ""
  | .arr _ => true
  | .obj _ => true

/-- JavaScript property access `j[key]`: reading a property of `null` throws
a `TypeError` (`Except.error`); reading a missing property, or any property
of a primitive, yields `undefined` (`none`). -/
def jsGetMember (j : Json) (key : String) : Except Unit (Option Json) :=
  match j with
  | .null => .error ()
  | .obj fields => .ok ((fields.find? (fun kv => kv.1 == key)).map Prod.snd)
  | _ => .ok none

/-- The base64 alphabet used by the platform `btoa`. -/
def base64Chars : List Char :=
  "ABCDEFGHIJKLMNOPQRSTUVWXYZabcdefghijklmnopqrstuvwxyz0123456789+/".toList

/-- The base64 digit for a 6-bit value. -/
def b64Char (n : Nat) : Char := base64Chars.getD n 'A'

/-- Base64-encode a list of byte values, with `=` padding. -/
def btoaBytes : List Nat → List Char
  | [] => []
  | [a] => [b64Char (a / 4), b64Char (a % 4 * 16), '=', '=']
  | [a, b] => [b64Char (a / 4), b64Char (a % 4 * 16 + b / 16), b64Char (b % 16 * 4), '=']
  | a :: b :: c :: rest =>
    b64Char (a / 4) :: b64Char (a % 4 * 16 + b / 16) ::
      b64Char (b % 16 * 4 + c / 64) :: b64Char (c % 64) :: btoaBytes rest

/-- Model of the platform `btoa` on the character codes of the string
(the app only encodes `username:appPassword`). -/
def btoa (s : String) : String :=
  String.mk (btoaBytes (s.toList.map Char.toNat))

/-- Escape a string as a JSON string literal, as `JSON.stringify` does. -/
def escapeJsonString (s : String) : String :=
  "\"" ++ String.mk (s.toList.foldr (fun c acc =>
    if c = '\"' then '\\' :: '\"' :: acc
    else if c = '\\' then '\\' :: '\\' :: acc
    else if c = '\n' then '\\' :: 'n' :: acc
    else c :: acc) []) ++ "\""

/-- The value object stored under one cart key of an `order_trips` entry;
the code reads only its `title` field, which may be missing. -/
structure CartItem where
  title : Option String
deriving DecidableEq, Repr

/-- The metadata keys of a fetched item that the enrichment code reads.
`order_trips` is an array of objects (each object maps cart keys to
`CartItem`s, in property order); `wp_travel_engine_enquiry_trip_id` is an
array of trip ids.  Either key may be missing. -/
structure ItemMeta where
  order_trips : Option (List (List (String × CartItem)))
  wp_travel_engine_enquiry_trip_id : Option (List Nat)
deriving DecidableEq, Repr

/-- A fetched Booking or Enquiry item (`_fields=id,date,title,status,meta`).
`title` and `date` are carried opaquely; `meta` itself may be missing;
`trip_name` is the field the enrichment adds (absent = the JavaScript
property being `undefined`). -/
structure Item where
  id : Nat
  date : String
  title : String
  status : Option String
  meta : Option ItemMeta
  trip_name : Option String
deriving DecidableEq, Repr

/-- `item.meta?.order_trips?.[0]` : the first entry of the `order_trips`
array, if any. -/
def orderTripsHead (item : Item) : Option (List (String × CartItem)) :=
  (item.meta.bind ItemMeta.order_trips).bind List.head?

/-- `item.meta?.wp_travel_engine_enquiry_trip_id?.[0]` : the first stored
enquiry trip id, if any. -/
def enquiryTripId (item : Item) : Option Nat :=
  (item.meta.bind ItemMeta.wp_travel_engine_enquiry_trip_id).bind List.head?

/-- The `title` member of a trip lookup response body; `rendered` may be
missing from the JSON. -/
structure RenderedTitle where
  rendered : Option String
deriving DecidableEq, Repr

/-- The parsed body of a `/wp-json/wp/v2/trip/{id}?_fields=title` response;
`title` may be missing (reading `.rendered` on it then throws). -/
structure TripBody where
  title : Option RenderedTitle
deriving DecidableEq, Repr

/-- A completed trip lookup: the HTTP status (`ok`) and parsed body. -/
structure TripRes where
  ok : Bool
  body : TripBody
deriving DecidableEq, Repr

/-- Environment for secondary trip lookups: for each trip id, either a
transport failure (the promise rejects, `Except.error`) or a response. -/
def TripEnv : Type := Nat → Except Unit TripRes

/-- One item of `addTripNamesToItems`'s `items.map` callback: returns the
enriched item and whether a secondary trip lookup request was issued.
Mirrors the source line by line: `tripId` starts `0`; for enquiries it is
read from `wp_travel_engine_enquiry_trip_id`; otherwise, if `order_trips`
has a first entry the embedded title is returned immediately (`||` falls
back on an empty or missing title); then a truthy (nonzero) `tripId` is
looked up, any throw or non-ok status falling through to the fallback. -/
def enrichOne (isEnquiry : Bool) (env : TripEnv) (item : Item) : Item × Bool :=
  if isEnquiry then
    match enquiryTripId item with
    | some tripId =>
      if tripId ≠ 0 then
        match env tripId with
        | .ok res =>
          if res.ok then
            match res.body.title with
            | some t => ({ item with trip_name := t.rendered }, true)
            | none => ({ item with trip_name := some "Unknown Trip" }, true)
          else ({ item with trip_name := some "Unknown Trip" }, true)
        | .error _ => ({ item with trip_name := some "Unknown Trip" }, true)
      else ({ item with trip_name := some "Unknown Trip" }, false)
    | none => ({ item with trip_name := some "Unknown Trip" }, false)
  else
    match orderTripsHead item with
    | some entries =>
      match entries.head? with
      | some (_, cartItem) =>
        ({ item with trip_name := some (match cartItem.title with
            | some t => if t = "" then "Unknown Trip" else t
            | none => "Unknown Trip") }, false)
      | none => ({ item with trip_name := some "Unknown Trip" }, false)
    | none => ({ item with trip_name := some "Unknown Trip" }, false)

/-- `addTripNamesToItems(items, auth, isEnquiry)`: enrich every item (the
`auth` argument only feeds the request headers and URLs, which the
environment abstracts).  Returns the enriched list and the number of
secondary lookup requests issued. -/
def addTripNamesToItems (items : List Item) (env : TripEnv) (isEnquiry : Bool) :
    List Item × Nat :=
  if items.isEmpty then ([], 0)
  else
    let results := items.map (enrichOne isEnquiry env)
    (results.map Prod.fst, results.countP (fun r => r.2 = true))

/-- The payload `handleLogin` persists under `providerAuth`. -/
structure AuthPayload where
  username : String
  userId : Int
  siteUrl : String
  token : String
deriving DecidableEq, Repr

/-- `JSON.stringify` of the `authPayload` object literal, keys in insertion
order. -/
def stringifyAuth (p : AuthPayload) : String :=
  "\x7b\"username\":" ++ escapeJsonString p.username ++
  ",\"userId\":" ++ toString p.userId ++
  ",\"siteUrl\":" ++ escapeJsonString p.siteUrl ++
  ",\"token\":" ++ escapeJsonString p.token ++ "\x7d"

/-- The application state: the React state hooks of `App` plus the
`providerAuth` entry of `localStorage` (`storage`). -/
structure AppState where
  isLoggedIn : Bool
  isLoading : Bool
  loginError : String
  siteUrl : String
  username : String
  appPassword : String
  bookings : List Item
  enquiries : List Item
  currentUsername : String
  userId : Option Int
  storage : Option String
deriving DecidableEq, Repr

/-- `handleLogout`: remove the persisted record and reset the in-memory
session and results. -/
def handleLogout (s : AppState) : AppState :=
  { s with
    storage := none
    isLoggedIn := false
    username := ""
    appPassword := ""
    currentUsername := ""
    userId := none
    bookings := []
    enquiries := [] }

/-- The parsed body of `/wp-json/wp/v2/users/me?context=edit`: the fields
the code reads. -/
structure UserBody where
  id : Int
  name : String
deriving DecidableEq, Repr

/-- A completed identity request: HTTP status and parsed body. -/
structure UserRes where
  ok : Bool
  body : UserBody
deriving DecidableEq, Repr

/-- Environment for `handleLogin`: the identity request either rejects with
a message (`error.message` of the transport failure) or completes. -/
structure LoginEnv where
  userResponse : Except String UserRes

/-- `handleLogin`: validate that no input is empty (before any request),
then exchange `username:appPassword` for the server-confirmed identity.
Returns the new state and whether a network request was issued. -/
def handleLogin (env : LoginEnv) (s : AppState) : AppState × Bool :=
  let s1 := { s with isLoading := true, loginError := "" }
  if s.siteUrl = "" ∨ s.username = "" ∨ s.appPassword = "" then
    ({ s1 with loginError := "All fields are required.", isLoading := false }, false)
  else
    let token := btoa (s.username ++ ":" ++ s.appPassword)
    match env.userResponse with
    | .error msg => ({ s1 with loginError := msg, isLoading := false }, true)
    | .ok r =>
      if r.ok then
        ({ s1 with
            storage := some (stringifyAuth
              ⟨r.body.name, r.body.id, s.siteUrl, token⟩)
            userId := some r.body.id
            currentUsername := r.body.name
            isLoggedIn := true
            isLoading := false }, true)
      else
        ({ s1 with
            loginError := "Invalid username or application password."
            isLoading := false }, true)

/-- A completed collection request: HTTP status and parsed body (typed at
the ingestion boundary as a list of items). -/
structure CollectionRes where
  ok : Bool
  body : List Item
deriving DecidableEq, Repr

/-- Environment for `fetchData`: the two collection requests (either a
transport rejection or a response) and the trip lookup environment. -/
structure FetchEnv where
  bookingsRes : Except Unit CollectionRes
  enquiriesRes : Except Unit CollectionRes
  trip : TripEnv

/-- The observable effects of one `fetchData` run: whether `alert` was
shown, how many collection requests and how many trip lookup requests were
issued. -/
structure FetchEffects where
  alerted : Bool
  collectionRequests : Nat
  tripRequests : Nat
deriving DecidableEq, Repr

/-- `fetchData`: parse the persisted record (outside the `try`, so a parse
throw propagates to the caller), return early if it is falsy, otherwise
issue both collection requests together; any transport failure or non-ok
status reaches the `catch`, which alerts and logs out.  On success both
collections are enriched and published by consecutive state updates with no
suspension point between them. -/
def fetchData (env : FetchEnv) (s : AppState) :
    Except Unit (AppState × FetchEffects) :=
  let s1 := { s with isLoading := true }
  match jsonParseOrNull s.storage with
  | .error _ => .error ()
  | .ok storedAuth =>
    if jsTruthy storedAuth then
      match env.bookingsRes, env.enquiriesRes with
      | .ok br, .ok er =>
        if br.ok && er.ok then
          let enhancedBookings := addTripNamesToItems br.body env.trip false
          let enhancedEnquiries := addTripNamesToItems er.body env.trip true
          .ok ({ s1 with
                  bookings := enhancedBookings.1
                  enquiries := enhancedEnquiries.1
                  isLoading := false },
               ⟨false, 2, enhancedBookings.2 + enhancedEnquiries.2⟩)
        else .ok ({ handleLogout s1 with isLoading := false }, ⟨true, 2, 0⟩)
      | _, _ => .ok ({ handleLogout s1 with isLoading := false }, ⟨true, 2, 0⟩)
    else .ok ({ s1 with isLoading := false }, ⟨false, 0, 0⟩)

/-- The state updates performed by the rehydration effect (the values the
`setSiteUrl`, `setCurrentUsername`, `setUserId`, `setIsLoggedIn` and
`setIsLoading` calls receive; field values are raw JSON members since a
wrongly shaped record is stored as-is). -/
structure RehydratedView where
  loggedIn : Bool
  siteUrl : Option Json
  username : Option Json
  userId : Option Json
  loadingDone : Bool

/-- The initial `useEffect`: if a `providerAuth` entry exists (a non-empty
string), `JSON.parse` it with no `try` — a malformed entry throws out of
the effect — and mark the session logged in with whatever fields the
parsed value has (member access throws on a parsed `null`). -/
def rehydrationEffect (storage : Option String) : Except Unit RehydratedView :=
  match storage with
  | none => .ok ⟨false, none, none, none, true⟩
  | some raw =>
    if raw = "" then .ok ⟨false, none, none, none, true⟩
    else
      match jsonParse raw with
      | .error _ => .error ()
      | .ok auth => do
        let su ← jsGetMember auth "siteUrl"
        let un ← jsGetMember auth "username"
        let uid ← jsGetMember auth "userId"
        .ok ⟨true, su, un, uid, true⟩

/-- The initial state of the React hooks (`isLoading` starts `true`, the
site URL input is prefilled) with an empty `localStorage`. -/
def initialState : AppState :=
  ⟨false, true, "", "https://world.hyrosy.com", "", "", [], [], "", none, none⟩

/-- A trip lookup environment answering trip `42` with a rendered title
`"Everest"` and rejecting every other request. -/
def cexTripEnv : TripEnv := fun n =>
  if n = 42 then .ok ⟨true, ⟨some ⟨some "Everest"⟩⟩⟩ else .error ()

/-- An Enquiry item that carries both an embedded `order_trips` map (first
entry titled `"Safari"`) and a stored enquiry trip id `42`. -/
def cexEnquiryWithOrderTrips : Item :=
  ⟨5, "2024-01-02", "Enquiry #5", none,
    some ⟨some [[("cart1", ⟨some "Safari"⟩)]], some [42]⟩, none⟩

/-- A Booking item whose `order_trips` first entry is titled `"Safari"`. -/
def sampleBookingOrderTrips : Item :=
  ⟨3, "2024-01-03", "Booking #3", some "publish",
    some ⟨some [[("cart1", ⟨some "Safari"⟩)]], none⟩, none⟩

/-- An Enquiry item whose stored enquiry trip id list is `[0]`. -/
def sampleEnquiryZero : Item :=
  ⟨1, "2024-01-01", "Enquiry #1", none, some ⟨none, some [0]⟩, none⟩

/-- An Enquiry item whose stored enquiry trip id is `42`. -/
def sampleEnquiry42 : Item :=
  ⟨6, "2024-01-04", "Enquiry #6", none, some ⟨none, some [42]⟩, none⟩

/-- A trip lookup environment that answers every request with HTTP success
and a body whose `title` object has no `rendered` member. -/
def missingRenderedEnv : TripEnv := fun _ => .ok ⟨true, ⟨some ⟨none⟩⟩⟩

/-- A fetch environment where the `booking` request rejects and the
`enquiry` request succeeds. -/
def cexFetchEnv : FetchEnv :=
  ⟨.error (), .ok ⟨true, []⟩, fun _ => .error ()⟩

/-- A state holding a persisted (truthy) `providerAuth` record. -/
def loggedInState : AppState :=
  { initialState with storage := some "1", isLoggedIn := true, isLoading := false }

/-- Claim C5 (confirmed): a login attempt with any empty input issues no
network request and reports the missing-input error, the check happening
before any network call. -/
theorem handleLogin_missing_input (env : LoginEnv) (s : AppState)
    (h : s.siteUrl = "" ∨ s.username = "" ∨ s.appPassword = "") :
    handleLogin env s =
      ({ s with loginError := "All fields are required.", isLoading := false }, false) := by
  unfold handleLogin
  rw [if_pos h]

/-- Witness for C5: the initial state with a password but no username. -/
theorem handleLogin_missing_input_witness :
    handleLogin ⟨.error "network"⟩ { initialState with appPassword := "pw" } =
      ({ initialState with
          appPassword := "pw"
          loginError := "All fields are required."
          isLoading := false }, false) :=
  handleLogin_missing_input _ _ (Or.inr (Or.inl rfl))

/-- Claim C8 (confirmed): logging out twice leaves the state identical to
logging out once, with the session record and both result lists absent. -/
theorem handleLogout_idempotent (s : AppState) :
    handleLogout (handleLogout s) = handleLogout s ∧
    (handleLogout s).storage = none ∧
    (handleLogout s).bookings = [] ∧
    (handleLogout s).enquiries = [] :=
  ⟨rfl, rfl, rfl, rfl⟩

/-- Claim C9 (confirmed): an Enquiry item whose stored trip id is absent,
empty, or `0` is given the fallback name with no secondary lookup. -/
theorem enquiry_absent_or_zero_trip_id (env : TripEnv) (item : Item)
    (h : enquiryTripId item = none ∨ enquiryTripId item = some 0) :
    enrichOne true env item = ({ item with trip_name := some "Unknown Trip" }, false) := by
  unfold enrichOne
  rcases h with h | h <;> rw [h] <;> simp

/-- Witness for C9: an enquiry whose stored trip id list is `[0]`. -/
theorem enquiry_absent_or_zero_trip_id_witness :
    enrichOne true cexTripEnv sampleEnquiryZero =
      ({ sampleEnquiryZero with trip_name := some "Unknown Trip" }, false) :=
  enquiry_absent_or_zero_trip_id _ _ (Or.inr rfl)

/-- Claim C10 (confirmed): an aggregation cycle started with no persisted
session returns without issuing any request, leaving everything but the
loading flag unchanged. -/
theorem fetchData_no_session (env : FetchEnv) (s : AppState)
    (h : s.storage = none) :
    fetchData env s = .ok ({ s with isLoading := false }, ⟨false, 0, 0⟩) := by
  unfold fetchData
  rw [h]
  rfl

/-- Witness for C10: the initial state has no persisted session. -/
theorem fetchData_no_session_witness :
    fetchData cexFetchEnv initialState =
      .ok ({ initialState with isLoading := false }, ⟨false, 0, 0⟩) :=
  fetchData_no_session _ _ rfl

/-- Every enrichment of one item only sets `trip_name`, leaving every other
field of the item untouched. -/
theorem enrichOne_fst_shape (flag : Bool) (env : TripEnv) (item : Item) :
    ∃ t, (enrichOne flag env item).1 = { item with trip_name := t } := by
  unfold enrichOne
  repeat' split
  all_goals exact ⟨_, rfl⟩

/-- Claim C7 (confirmed): enrichment returns a list of the same length, in
input order, and each output item agrees with the input item at that index
on every field other than `trip_name`. -/
theorem enrich_preserves_length_order_fields (flag : Bool) (env : TripEnv)
    (items : List Item) :
    (addTripNamesToItems items env flag).1.length = items.length ∧
    ∀ i : Nat,
      ((addTripNamesToItems items env flag).1[i]?.map Item.id =
        items[i]?.map Item.id) ∧
      ((addTripNamesToItems items env flag).1[i]?.map Item.date =
        items[i]?.map Item.date) ∧
      ((addTripNamesToItems items env flag).1[i]?.map Item.title =
        items[i]?.map Item.title) ∧
      ((addTripNamesToItems items env flag).1[i]?.map Item.status =
        items[i]?.map Item.status) ∧
      ((addTripNamesToItems items env flag).1[i]?.map Item.meta =
        items[i]?.map Item.meta) := by
  have hm : (addTripNamesToItems items env flag).1 =
      items.map (fun it => (enrichOne flag env it).1) := by
    unfold addTripNamesToItems
    cases items <;> simp
  rw [hm]
  refine ⟨by simp, fun i => ?_⟩
  rw [List.getElem?_map]
  cases h : items[i]? with
  | none => simp
  | some it =>
    obtain ⟨t, ht⟩ := enrichOne_fst_shape flag env it
    simp [ht]

/-- Claim C3 (confirmed): when the persisted session parses truthy and
either collection fetch fails (transport rejection or non-ok status), the
cycle clears the session record and all in-memory results, surfaces the
alert, and publishes nothing; and in every run the two collections are
published together (both updated from this cycle), both left untouched, or
both cleared — never a mixed state. -/
theorem fetchData_failure_clears_and_atomic :
    (∀ (env : FetchEnv) (s : AppState) (j : Json),
        jsonParseOrNull s.storage = .ok j → jsTruthy j = true →
        (¬ ∃ br er, env.bookingsRes = .ok br ∧ env.enquiriesRes = .ok er ∧
            br.ok = true ∧ er.ok = true) →
        ∃ s', fetchData env s = .ok (s', ⟨true, 2, 0⟩) ∧
          s'.storage = none ∧ s'.isLoggedIn = false ∧
          s'.bookings = [] ∧ s'.enquiries = []) ∧
    (∀ (env : FetchEnv) (s : AppState) (out : AppState) (eff : FetchEffects),
        fetchData env s = .ok (out, eff) →
        (out.bookings = s.bookings ∧ out.enquiries = s.enquiries) ∨
        (out.bookings = [] ∧ out.enquiries = []) ∨
        (∃ br er, env.bookingsRes = .ok br ∧ env.enquiriesRes = .ok er ∧
          out.bookings = (addTripNamesToItems br.body env.trip false).1 ∧
          out.enquiries = (addTripNamesToItems er.body env.trip true).1)) := by
  constructor
  · intro env s j hp ht hfail
    unfold fetchData
    rw [hp]
    dsimp only
    rw [if_pos ht]
    cases hbr : env.bookingsRes with
    | error e => exact ⟨_, rfl, rfl, rfl, rfl, rfl⟩
    | ok br =>
      cases her : env.enquiriesRes with
      | error e => exact ⟨_, rfl, rfl, rfl, rfl, rfl⟩
      | ok er =>
        have hok : (br.ok && er.ok) = false := by
          cases h1 : br.ok <;> cases h2 : er.ok <;> simp
          exact hfail ⟨br, er, hbr, her, h1, h2⟩
        dsimp only
        rw [hok]
        exact ⟨_, rfl, rfl, rfl, rfl, rfl⟩
  · intro env s out eff h
    unfold fetchData at h
    cases hp : jsonParseOrNull s.storage with
    | error e => rw [hp] at h; exact absurd h (by simp)
    | ok j =>
      rw [hp] at h
      dsimp only at h
      by_cases ht : jsTruthy j = true
      · rw [if_pos ht] at h
        cases hbr : env.bookingsRes with
        | error e =>
          rw [hbr] at h
          dsimp only at h
          simp only [Except.ok.injEq, Prod.mk.injEq] at h
          obtain ⟨hout, -⟩ := h
          subst hout
          exact Or.inr (Or.inl ⟨rfl, rfl⟩)
        | ok br =>
          cases her : env.enquiriesRes with
          | error e =>
            rw [hbr, her] at h
            dsimp only at h
            simp only [Except.ok.injEq, Prod.mk.injEq] at h
            obtain ⟨hout, -⟩ := h
            subst hout
            exact Or.inr (Or.inl ⟨rfl, rfl⟩)
          | ok er =>
            rw [hbr, her] at h
            dsimp only at h
            by_cases hok : (br.ok && er.ok) = true
            · rw [if_pos hok] at h
              simp only [Except.ok.injEq, Prod.mk.injEq] at h
              obtain ⟨hout, -⟩ := h
              subst hout
              exact Or.inr (Or.inr ⟨br, er, rfl, rfl, rfl, rfl⟩)
            · rw [if_neg hok] at h
              simp only [Except.ok.injEq, Prod.mk.injEq] at h
              obtain ⟨hout, -⟩ := h
              subst hout
              exact Or.inr (Or.inl ⟨rfl, rfl⟩)
      · rw [if_neg ht] at h
        simp only [Except.ok.injEq, Prod.mk.injEq] at h
        obtain ⟨hout, -⟩ := h
        subst hout
        exact Or.inl ⟨rfl, rfl⟩

/-- Witness for C3: a persisted session `"1"` and a rejected `booking`
request lead to the cleared, alerted state. -/
theorem fetchData_failure_clears_and_atomic_witness :
    ∃ s', fetchData cexFetchEnv loggedInState = .ok (s', ⟨true, 2, 0⟩) ∧
      s'.storage = none ∧ s'.isLoggedIn = false ∧
      s'.bookings = [] ∧ s'.enquiries = [] :=
  fetchData_failure_clears_and_atomic.1 cexFetchEnv loggedInState (Json.num 1)
    rfl rfl (by rintro ⟨br, er, hbr, -, -, -⟩; exact Except.noConfusion hbr)

/-- Claim C6 (confirmed): when no input is empty and the remote identity
check succeeds, the session is created and persisted with `actorName` and
`actorId` taken from the identity response (never the typed username), the
site URL, and the encoded credential token. -/
theorem handleLogin_success_server_identity (env : LoginEnv) (s : AppState)
    (r : UserRes) (h1 : s.siteUrl ≠ "") (h2 : s.username ≠ "")
    (h3 : s.appPassword ≠ "") (hr : env.userResponse = .ok r)
    (hok : r.ok = true) :
    handleLogin env s =
      ({ s with
          loginError := ""
          storage := some (stringifyAuth ⟨r.body.name, r.body.id, s.siteUrl,
            btoa (s.username ++ ":" ++ s.appPassword)⟩)
          userId := some r.body.id
          currentUsername := r.body.name
          isLoggedIn := true
          isLoading := false }, true) := by
  unfold handleLogin
  rw [if_neg (by push_neg; exact ⟨h1, h2, h3⟩), hr]
  dsimp only
  rw [if_pos hok]

/-- Witness for C6: the documented scenario, identity response
`id 7, name "alice"`. -/
theorem handleLogin_success_server_identity_witness :
    handleLogin ⟨.ok ⟨true, ⟨7, "alice"⟩⟩⟩
      { initialState with username := "al", appPassword := "pw" } =
      ({ initialState with
          username := "al"
          appPassword := "pw"
          loginError := ""
          storage := some (stringifyAuth ⟨"alice", 7, "https://world.hyrosy.com",
            btoa ("al" ++ ":" ++ "pw")⟩)
          userId := some 7
          currentUsername := "alice"
          isLoggedIn := true
          isLoading := false }, true) :=
  handleLogin_success_server_identity _ _ ⟨true, ⟨7, "alice"⟩⟩
    (by decide) (by decide) (by decide) rfl rfl

/-- Counterexample to claim C1: an Enquiry item that carries an embedded
`order_trips` map titled `"Safari"` nevertheless triggers the secondary
lookup for its stored trip id and takes the looked-up title `"Everest"` —
the embedded map is not given priority for Enquiries. -/
theorem enrich_priority_counterexample :
    (enrichOne true cexTripEnv cexEnquiryWithOrderTrips).1.trip_name = some "Everest" ∧
    (enrichOne true cexTripEnv cexEnquiryWithOrderTrips).2 = true :=
  ⟨rfl, rfl⟩

/-- Claim C1 as amended: the priority order holds for Booking items only —
a Booking takes the embedded `order_trips` first entry's title with no
request and otherwise falls back, never issuing a secondary lookup; an
Enquiry ignores `order_trips` entirely and always issues the secondary
lookup when its stored trip id is nonzero. -/
theorem enrich_priority_amended :
    (∀ (env : TripEnv) (item : Item), (enrichOne false env item).2 = false) ∧
    (∀ (env : TripEnv) (item : Item) (k : String) (ci : CartItem)
        (tl : List (String × CartItem)) (t : String),
        orderTripsHead item = some ((k, ci) :: tl) → ci.title = some t →
        t ≠ "" →
        enrichOne false env item = ({ item with trip_name := some t }, false)) ∧
    (∀ (env : TripEnv) (item : Item),
        orderTripsHead item = none →
        enrichOne false env item =
          ({ item with trip_name := some "Unknown Trip" }, false)) ∧
    (∀ (env : TripEnv) (item : Item) (n : Nat),
        enquiryTripId item = some n → n ≠ 0 →
        (enrichOne true env item).2 = true) := by
  refine ⟨?_, ?_, ?_, ?_⟩
  · intro env item
    unfold enrichOne
    simp only [Bool.false_eq_true, if_false]
    cases orderTripsHead item with
    | none => rfl
    | some entries =>
      cases entries with
      | nil => rfl
      | cons e tl => cases e; rfl
  · intro env item k ci tl t hhead hti htne
    unfold enrichOne
    simp only [Bool.false_eq_true, if_false]
    rw [hhead]
    dsimp only [List.head?]
    rw [hti]
    dsimp only
    rw [if_neg htne]
  · intro env item hhead
    unfold enrichOne
    simp only [Bool.false_eq_true, if_false]
    rw [hhead]
  · intro env item n hid hn
    unfold enrichOne
    simp only [if_true]
    rw [hid]
    dsimp only
    rw [if_pos hn]
    cases env n with
    | error e => rfl
    | ok res =>
      dsimp only
      by_cases hok : res.ok = true
      · rw [if_pos hok]
        cases res.body.title <;> rfl
      · rw [if_neg hok]

/-- Witness for the amended C1: a Booking with an embedded `"Safari"` title
resolves to it with no request; the Enquiry of the counterexample issues a
lookup despite its embedded map. -/
theorem enrich_priority_amended_witness :
    enrichOne false cexTripEnv sampleBookingOrderTrips =
      ({ sampleBookingOrderTrips with trip_name := some "Safari" }, false) ∧
    (enrichOne true cexTripEnv cexEnquiryWithOrderTrips).2 = true :=
  ⟨enrich_priority_amended.2.1 cexTripEnv sampleBookingOrderTrips
      "cart1" ⟨some "Safari"⟩ [] "Safari" rfl rfl (by decide),
    enrich_priority_amended.2.2.2 cexTripEnv cexEnquiryWithOrderTrips 42
      rfl (by decide)⟩

/-- Counterexample to claim C2: enriching an Enquiry whose secondary lookup
succeeds with a body whose `title` object has no `rendered` member sets the
trip name to the absent value, not a title and not the fallback literal. -/
theorem trip_name_absent_counterexample :
    (addTripNamesToItems [sampleEnquiry42] missingRenderedEnv true).1.map
      Item.trip_name = [none] := rfl

/-- Enrichment never changes the stored enquiry trip id of an item. -/
theorem enquiryTripId_enrichOne (flag : Bool) (env : TripEnv) (item : Item) :
    enquiryTripId (enrichOne flag env item).1 = enquiryTripId item := by
  obtain ⟨t, ht⟩ := enrichOne_fst_shape flag env item
  rw [ht]
  rfl

/-- The one way enrichment leaves `trip_name` absent: the item is an
Enquiry, its stored trip id is nonzero, and the lookup succeeds with a
`title` object lacking `rendered`. -/
theorem enrichOne_trip_name_none (flag : Bool) (env : TripEnv) (item : Item)
    (h : (enrichOne flag env item).1.trip_name = none) :
    flag = true ∧ ∃ n, enquiryTripId item = some n ∧ n ≠ 0 ∧
      env n = .ok ⟨true, ⟨some ⟨none⟩⟩⟩ := by
  cases flag with
  | false =>
    exfalso
    unfold enrichOne at h
    simp only [Bool.false_eq_true, if_false] at h
    cases hh : orderTripsHead item with
    | none => rw [hh] at h; simp at h
    | some entries =>
      rw [hh] at h
      cases entries with
      | nil => simp at h
      | cons e tl => cases e; simp at h
  | true =>
    refine ⟨rfl, ?_⟩
    unfold enrichOne at h
    simp only [if_true] at h
    cases hid : enquiryTripId item with
    | none => rw [hid] at h; simp at h
    | some n =>
      rw [hid] at h
      dsimp only at h
      by_cases hn : n ≠ 0
      · rw [if_pos hn] at h
        cases henv : env n with
        | error e => rw [henv] at h; simp at h
        | ok res =>
          rw [henv] at h
          dsimp only at h
          by_cases hok : res.ok = true
          · rw [if_pos hok] at h
            cases htitle : res.body.title with
            | none => rw [htitle] at h; simp at h
            | some tobj =>
              rw [htitle] at h
              simp only at h
              refine ⟨n, rfl, hn, ?_⟩
              rw [henv]
              cases res with
              | mk rok rbody =>
                cases rbody with
                | mk rtitle =>
                  cases tobj with
                  | mk rend =>
                    simp only at hok htitle h
                    simp_all
          · rw [if_neg hok] at h
            simp at h
      · rw [if_neg hn] at h
        simp at h

/-- Claim C2 as amended: after enrichment a Booking item's trip name is
always present (a resolved title or the fallback literal), and an enriched
item's trip name can be absent only in one case: an Enquiry whose nonzero
trip id lookup succeeded with a `title` object lacking `rendered`; in the
embedding enrichment is a total function, so no error reaches the caller. -/
theorem trip_name_total_amended :
    (∀ (env : TripEnv) (items : List Item) (it : Item),
        it ∈ (addTripNamesToItems items env false).1 →
        ∃ t, it.trip_name = some t) ∧
    (∀ (flag : Bool) (env : TripEnv) (items : List Item) (it : Item),
        it ∈ (addTripNamesToItems items env flag).1 → it.trip_name = none →
        flag = true ∧ ∃ n, enquiryTripId it = some n ∧ n ≠ 0 ∧
          env n = .ok ⟨true, ⟨some ⟨none⟩⟩⟩) := by
  have hmem : ∀ (flag : Bool) (env : TripEnv) (items : List Item) (it : Item),
      it ∈ (addTripNamesToItems items env flag).1 →
      ∃ src, src ∈ items ∧ (enrichOne flag env src).1 = it := by
    intro flag env items it hit
    have hm : (addTripNamesToItems items env flag).1 =
        items.map (fun x => (enrichOne flag env x).1) := by
      unfold addTripNamesToItems
      cases items <;> simp
    rw [hm] at hit
    exact List.mem_map.mp hit
  constructor
  · intro env items it hit
    obtain ⟨src, -, hsrc⟩ := hmem false env items it hit
    cases htn : it.trip_name with
    | some t => exact ⟨t, rfl⟩
    | none =>
      exfalso
      have := enrichOne_trip_name_none false env src (hsrc ▸ htn)
      simp at this
  · intro flag env items it hit htn
    obtain ⟨src, -, hsrc⟩ := hmem flag env items it hit
    obtain ⟨hflag, n, hid, hn, henv⟩ :=
      enrichOne_trip_name_none flag env src (hsrc ▸ htn)
    refine ⟨hflag, n, ?_, hn, henv⟩
    rw [← hsrc, enquiryTripId_enrichOne, hid]

/-- Witness for the amended C2: the singleton collection of the
counterexample Enquiry satisfies the characterization. -/
theorem trip_name_total_amended_witness :
    ∃ n, enquiryTripId { sampleEnquiry42 with trip_name := none } = some n ∧
      n ≠ 0 ∧ missingRenderedEnv n = .ok ⟨true, ⟨some ⟨none⟩⟩⟩ :=
  (trip_name_total_amended.2 true missingRenderedEnv [sampleEnquiry42]
    { sampleEnquiry42 with trip_name := none }
    (show _ ∈ [{ sampleEnquiry42 with trip_name := none }] from
      List.mem_singleton.mpr rfl) rfl).2

/-- Counterexample to claim C4: a stored record holding the malformed text
`"\x7b"` makes rehydration throw into the caller instead of returning an
absent session. -/
theorem rehydrate_malformed_counterexample :
    rehydrationEffect (some "\x7b") = .error () := rfl

/-- Claim C4 as amended: rehydration yields an absent session only when the
stored record is missing or empty; stored text that does not parse as JSON
(or parses to `null`) throws into the caller; and any other parsed value,
well-formed or not, yields a logged-in session with whatever members are
present. -/
theorem rehydrate_amended :
    rehydrationEffect none = .ok ⟨false, none, none, none, true⟩ ∧
    rehydrationEffect (some "") = .ok ⟨false, none, none, none, true⟩ ∧
    (∀ raw : String, raw ≠ "" → jsonParse raw = .error () →
        rehydrationEffect (some raw) = .error ()) ∧
    (∀ raw : String, raw ≠ "" → jsonParse raw = .ok Json.null →
        rehydrationEffect (some raw) = .error ()) ∧
    (∀ (raw : String) (j : Json), raw ≠ "" → jsonParse raw = .ok j →
        j ≠ Json.null →
        ∃ v, rehydrationEffect (some raw) = .ok v ∧ v.loggedIn = true) := by
  refine ⟨rfl, rfl, ?_, ?_, ?_⟩
  · intro raw h hp
    unfold rehydrationEffect
    dsimp only
    rw [if_neg h, hp]
  · intro raw h hp
    unfold rehydrationEffect
    dsimp only
    rw [if_neg h, hp]
    rfl
  · intro raw j h hp hnull
    unfold rehydrationEffect
    dsimp only
    rw [if_neg h, hp]
    cases j with
    | null => exact absurd rfl hnull
    | bool b => exact ⟨_, rfl, rfl⟩
    | num n => exact ⟨_, rfl, rfl⟩
    | str s => exact ⟨_, rfl, rfl⟩
    | arr xs => exact ⟨_, rfl, rfl⟩
    | obj fields => exact ⟨_, rfl, rfl⟩

/-- Witness for the amended C4: the stored text `"1"` parses, is not null,
and rehydrates to a logged-in view. -/
theorem rehydrate_amended_witness :
    ∃ v, rehydrationEffect (some "1") = .ok v ∧ v.loggedIn = true :=
  rehydrate_amended.2.2.2.2 "1" (Json.num 1) (by decide) rfl nofun
